import Mathlib

/-!
Verification development for the MCP WebSocket client
(`src/main/mcp_websocket.c` / `src/main/mcp_websocket.h`).

The C module is shallowly embedded: each C function that the verified
properties depend on is translated into an executable Lean definition of
the same name, operating on an explicit `Client` record in place of the
C global `g_ws_client`.  C strings become `List Char`; `uint32_t`
arithmetic is modelled on `Nat` with explicit reduction modulo `2 ^ 32`
at the points where the C code can wrap; `esp_err_t` values are `Int`
constants with the ESP-IDF numeric values.  The FreeRTOS queue of
`mcp_ws_send_msg_t *` pointers is modelled as a Lean list in FIFO order
(front of the list = next element returned by `xQueueReceive`).
-/

/-! ## ESP-IDF error codes (`esp_err.h`) -/

def ESP_OK : Int := 0

def ESP_FAIL : Int := -1

def ESP_ERR_NO_MEM : Int := 0x101

def ESP_ERR_INVALID_ARG : Int := 0x102

def ESP_ERR_INVALID_STATE : Int := 0x103

def ESP_ERR_TIMEOUT : Int := 0x107

/-! ## Constants from `mcp_websocket.h` -/

def MCP_WS_MAX_URL_LEN : Nat := 512

def MCP_WS_MAX_PATH_LEN : Nat := 512

def MCP_WS_MAX_HOST_LEN : Nat := 256

def MCP_WS_MAX_MESSAGE_LEN : Nat := 2048

def MCP_WS_RECONNECT_DELAY_MS : Nat := 5000

def MCP_WS_PING_INTERVAL_MS : Nat := 20000

def MCP_WS_SEND_QUEUE_SIZE : Nat := 10

def MCP_WS_SEND_TIMEOUT_MS : Nat := 1000

/-- Modulus of `uint32_t` arithmetic. -/
def UINT32_MOD : Nat := 2 ^ 32

/-! ## Enumerations from `mcp_websocket.h` -/

/-- `mcp_ws_state_t`: the connection state machine's states. -/
inductive mcp_ws_state_t where
  | IDLE
  | INITIALIZING
  | CONNECTING
  | CONNECTED
  | DISCONNECTING
  | DISCONNECTED
  | RECONNECTING
  | ERROR
deriving DecidableEq, Repr

/-- `mcp_ws_event_type_t`: event types delivered to the registered callback. -/
inductive mcp_ws_event_type_t where
  | CONNECTED
  | DISCONNECTED
  | MESSAGE_RECEIVED
  | MESSAGE_SENT
  | ERROR
deriving DecidableEq, Repr

/-- `mcp_ws_msg_type_t`: kinds of outbound frames in the send queue. -/
inductive mcp_ws_msg_type_t where
  | TEXT
  | PING
  | PONG
  | CLOSE
deriving DecidableEq, Repr

/-- `ws_transport_opcodes_t` (from `esp_transport_ws.h`): opcodes of
received frames, as reported by `esp_transport_ws_get_read_opcode`. -/
inductive ws_transport_opcodes_t where
  | CONT
  | TEXT
  | BINARY
  | CLOSE
  | PING
  | PONG
deriving DecidableEq, Repr

/-- `mcp_ws_send_msg_t`: one entry of the send queue.  The C struct also
stores `data_len`; here it is `data.length` (the C code always sets
`data_len` to the length of the copied payload). -/
structure mcp_ws_send_msg_t where
  type : mcp_ws_msg_type_t
  data : List Char
deriving DecidableEq, Repr

/-- `mcp_ws_event_t` as passed to the callback (the `data`/`data_len`
pair is one list, like `mcp_ws_send_msg_t`). -/
structure mcp_ws_event_t where
  event_type : mcp_ws_event_type_t
  data : List Char
  error_code : Int
deriving DecidableEq, Repr

/-- `mcp_ws_config_t`.  The C `endpoint` field is a `char[512]` array,
so the string it carries has `strlen` at most 511; the
`event_callback` function pointer is modelled by whether it is
non-NULL. -/
structure mcp_ws_config_t where
  endpoint : List Char
  has_callback : Bool
  auto_reconnect : Bool
  reconnect_delay_ms : Nat
  ping_interval_ms : Nat
deriving DecidableEq, Repr

/-- `mcp_websocket_client_t` (the global `g_ws_client`), restricted to
the fields the verified properties observe.  The transport handles,
`state_start_time` and `last_ping_time` (wall-clock data) are not
modelled; `send_queue_created` / `ping_timer_created` record whether
`xQueueCreate` / `esp_timer_create` have produced a handle, and
`ping_timer_active` whether the ping timer is currently started. -/
structure Client where
  config : mcp_ws_config_t
  event_callback : Bool
  state : mcp_ws_state_t
  host : Option (List Char)
  port : Nat
  path : Option (List Char)
  use_ssl : Bool
  send_queue_created : Bool
  send_queue : List mcp_ws_send_msg_t
  ping_timer_created : Bool
  ping_timer_active : Bool
  sent_messages : Nat
  received_messages : Nat
  reconnect_count : Nat
  initialized : Bool
  should_stop : Bool
  auto_reconnect_enabled : Bool
deriving DecidableEq, Repr

/-- `static mcp_websocket_client_t g_ws_client = {0};` - the all-zero
initial value of the global client (state `0` is `IDLE`). -/
def zero_client : Client where
  config := ⟨[], false, false, 0, 0⟩
  event_callback := false
  state := .IDLE
  host := none
  port := 0
  path := none
  use_ssl := false
  send_queue_created := false
  send_queue := []
  ping_timer_created := false
  ping_timer_active := false
  sent_messages := 0
  received_messages := 0
  reconnect_count := 0
  initialized := false
  should_stop := false
  auto_reconnect_enabled := false

/-! ## `trigger_event` -/

/-- `trigger_event`: invokes the callback if one is registered.  The
returned list is the sequence of events actually delivered (empty when
no callback is set). -/
def trigger_event (g : Client) (ty : mcp_ws_event_type_t) (data : List Char)
    (error_code : Int) : List mcp_ws_event_t :=
  if g.event_callback then [⟨ty, data, error_code⟩] else []

/-! ## `enqueue_send_message` and the send queue

`xQueueSend` on a FreeRTOS queue of capacity `MCP_WS_SEND_QUEUE_SIZE`
succeeds immediately when fewer than `MCP_WS_SEND_QUEUE_SIZE` items are
stored and otherwise blocks up to `MCP_WS_SEND_TIMEOUT_MS`; the claims
quantify over enqueues falling inside one timeout window (no consumer
pops in between), for which a full queue means `xQueueSend` returns
`errQUEUE_FULL` and `enqueue_send_message` drops the frame.  `malloc`
failure paths (`ESP_ERR_NO_MEM`) are not modelled. -/

/-- `enqueue_send_message` (mcp_websocket.c:98-136). -/
def enqueue_send_message (g : Client) (ty : mcp_ws_msg_type_t)
    (data : List Char) : Client × Int :=
  if !g.send_queue_created then (g, ESP_ERR_INVALID_STATE)
  else if g.send_queue.length < MCP_WS_SEND_QUEUE_SIZE then
    ({g with send_queue := g.send_queue ++ [⟨ty, data⟩]}, ESP_OK)
  else (g, ESP_ERR_TIMEOUT)

/-- A sequence of producer calls to `enqueue_send_message`, returning
the final client and the list of result codes in call order. -/
def enqueue_list (g : Client) :
    List (mcp_ws_msg_type_t × List Char) → Client × List Int
  | [] => (g, [])
  | m :: ms =>
    let r := enqueue_send_message g m.1 m.2
    let rest := enqueue_list r.1 ms
    (rest.1, r.2 :: rest.2)

/-- The consumer side: the `while (xQueueReceive(...) == pdTRUE)` drain
loop pops queue entries one at a time from the front until empty; the
result is the order in which entries are consumed. -/
def drain_all : List mcp_ws_send_msg_t → List mcp_ws_send_msg_t
  | [] => []
  | m :: rest => m :: drain_all rest

/-! ## `parse_url` (mcp_websocket.c:147-252) -/

/-- C `atoi` digit-accumulation loop (mathematical value; the `int`
overflow of `atoi` on absurdly long digit strings is undefined behavior
in C and is modelled as the exact value here). -/
def atoi_digits : List Char → Int → Int
  | c :: cs, acc =>
    if c.isDigit then atoi_digits cs (acc * 10 + (c.toNat - 48 : Nat)) else acc
  | [], acc => acc

/-- C `atoi`: skips leading whitespace, consumes an optional sign, then
leading digits; returns 0 when no digits are found. -/
def atoi (s : List Char) : Int :=
  let s1 := s.dropWhile (fun c =>
    c = ' ' ∨ c = '\t' ∨ c = '\n' ∨ c = Char.ofNat 11 ∨ c = Char.ofNat 12 ∨ c = '\r')
  match s1 with
  | '-' :: rest => - atoi_digits rest 0
  | '+' :: rest => atoi_digits rest 0
  | _ => atoi_digits s1 0

/-- Result of `parse_url`: on success the fields of `g_ws_client` that
the parser fills in (`use_ssl`, `port`, `host`, `path`). -/
structure ParsedUrl where
  use_ssl : Bool
  port : Nat
  host : List Char
  path : List Char
deriving DecidableEq, Repr

/-- Outcome of `parse_url`: success or an `esp_err_t`. -/
inductive ParseOutcome where
  | ok (v : ParsedUrl)
  | error (e : Int)
deriving DecidableEq, Repr

/-- `"wss://"` -/
def wss_scheme : List Char := ['w', 's', 's', ':', '/', '/']

/-- `"ws://"` -/
def ws_scheme : List Char := ['w', 's', ':', '/', '/']

/-- `"/mcp/"`, the default path. -/
def mcp_default_path : List Char := ['/', 'm', 'c', 'p', '/']

/-- Port-check step of `parse_url` (mcp_websocket.c:225-241): look for
`':'` in the copied host buffer; if present, terminate the host there
and `atoi` the rest as the port, requiring `0 < port ≤ 65535`. -/
def parse_port (ssl : Bool) (port0 : Nat) (host path : List Char) : ParseOutcome :=
  let hostOnly := host.takeWhile (fun c => c ≠ ':')
  let portPart := host.dropWhile (fun c => c ≠ ':')
  if portPart = [] then .ok ⟨ssl, port0, host, path⟩
  else
    let p := atoi (portPart.drop 1)
    if 0 < p ∧ p ≤ 65535 then .ok ⟨ssl, p.toNat, hostOnly, path⟩
    else .error ESP_ERR_INVALID_ARG

/-- Host/path split of `parse_url` (mcp_websocket.c:199-223): the first
`'/'` after the scheme starts the path, copied verbatim (`strlcpy` with
a 512-byte buffer keeps at most 511 characters); the part before it
must have length in `1..255` to fit the host buffer.  Without a `'/'`
the whole remainder is `strlcpy`ed into the 256-byte host buffer
(truncating to 255 characters) and the path defaults to `"/mcp/"`. -/
def parse_after_scheme (ssl : Bool) (port0 : Nat) (rest : List Char) : ParseOutcome :=
  let hostPart := rest.takeWhile (fun c => c ≠ '/')
  let pathPart := rest.dropWhile (fun c => c ≠ '/')
  if pathPart ≠ [] then
    if 0 < hostPart.length ∧ hostPart.length < MCP_WS_MAX_HOST_LEN then
      parse_port ssl port0 hostPart (pathPart.take (MCP_WS_MAX_PATH_LEN - 1))
    else .error ESP_ERR_INVALID_ARG
  else
    parse_port ssl port0 (hostPart.take (MCP_WS_MAX_HOST_LEN - 1)) mcp_default_path

/-- `parse_url` (mcp_websocket.c:147-252).  The endpoint is first
`strlcpy`ed into a 512-byte work buffer (truncating to 511 characters);
`"wss://"` selects SSL with default port 443, `"ws://"` plain TCP with
default port 80, anything else is `ESP_ERR_INVALID_ARG`. -/
def parse_url (endpoint : List Char) : ParseOutcome :=
  let url := endpoint.take (MCP_WS_MAX_URL_LEN - 1)
  if url.take 6 = wss_scheme then parse_after_scheme true 443 (url.drop 6)
  else if url.take 5 = ws_scheme then parse_after_scheme false 80 (url.drop 5)
  else .error ESP_ERR_INVALID_ARG

/-! ## The main state machine task (`websocket_main_task`, mcp_websocket.c:360-611)

One dispatch of the `switch (g_ws_client.state)` body is modelled as a
function of the current client and of the data the environment (the
transport library and scheduler) supplies during that dispatch.  Wall
clock delays (`vTaskDelay`) have no observable effect on the modelled
state and are dropped. -/

/-- `set_state` (mcp_websocket.c:78-84); `state_start_time` is not
modelled, so the body reduces to the field update. -/
def set_state (g : Client) (new_state : mcp_ws_state_t) : Client :=
  {g with state := new_state}

/-- Environment data consumed by one dispatch of the state switch. -/
inductive TaskInput where
  /-- `INITIALIZING`: whether `create_transport_list()` returned `ESP_OK`. -/
  | initResult (ok : Bool)
  /-- `CONNECTING`: the `esp_transport_connect` result and the
  `esp_transport_ws_get_upgrade_request_status` handshake status. -/
  | connectResult (result : Int) (status : Int)
  /-- `CONNECTED`, send sub-loop: one `xQueueReceive` pop, with the
  `esp_transport_ws_send_raw` result for the popped message. -/
  | sendResult (sent : Int)
  /-- `CONNECTED`, receive: `esp_transport_read` returned `len > 0` with
  this read opcode and payload. -/
  | readFrame (opcode : ws_transport_opcodes_t) (payload : List Char)
  /-- `CONNECTED`, receive: `esp_transport_read` returned `len ≤ 0`. -/
  | readError (len : Int)
  /-- For states that consume no environment data. -/
  | tick
deriving DecidableEq, Repr

/-- `MCP_WS_STATE_CONNECTING` case (mcp_websocket.c:391-458): a negative
connect result goes to `DISCONNECTED`; otherwise handshake status 101
goes to `CONNECTED`, zeroes the reconnect counter, emits the
`CONNECTED` event and starts the ping timer; any other status goes to
`DISCONNECTED`. -/
def connecting_step (g : Client) (result status : Int) : Client × List mcp_ws_event_t :=
  if result < 0 then (set_state g .DISCONNECTED, [])
  else if status = 101 then
    let g1 := {set_state g .CONNECTED with reconnect_count := 0}
    let evs := trigger_event g1 .CONNECTED [] ESP_OK
    let g2 := if g1.ping_timer_created then {g1 with ping_timer_active := true} else g1
    (g2, evs)
  else (set_state g .DISCONNECTED, [])

/-- One iteration of the `MCP_WS_STATE_CONNECTED` send-drain loop
(mcp_websocket.c:462-501): pop one message; on a negative send result
go to `DISCONNECTED`, otherwise count it as sent and, for TEXT frames
only, emit `MESSAGE_SENT`.  The popped message is freed either way. -/
def connected_drain_one (g : Client) (sent : Int) : Client × List mcp_ws_event_t :=
  match g.send_queue with
  | [] => (g, [])
  | msg :: rest =>
    let g1 := {g with send_queue := rest}
    if sent < 0 then (set_state g1 .DISCONNECTED, [])
    else
      let g2 := {g1 with sent_messages := (g1.sent_messages + 1) % UINT32_MOD}
      if msg.type = .TEXT then
        (g2, trigger_event g2 .MESSAGE_SENT msg.data ESP_OK)
      else (g2, [])

/-- The `MCP_WS_STATE_CONNECTED` receive dispatch for `len > 0`
(mcp_websocket.c:507-546): TEXT/BINARY count as received and are
forwarded as `MESSAGE_RECEIVED`; CLOSE goes to `DISCONNECTED`; PING
enqueues a PONG with the received payload (the enqueue result is
discarded); PONG and unknown opcodes are ignored. -/
def connected_recv (g : Client) (opcode : ws_transport_opcodes_t)
    (payload : List Char) : Client × List mcp_ws_event_t :=
  match opcode with
  | .TEXT =>
    let g1 := {g with received_messages := (g.received_messages + 1) % UINT32_MOD}
    (g1, trigger_event g1 .MESSAGE_RECEIVED payload ESP_OK)
  | .BINARY =>
    let g1 := {g with received_messages := (g.received_messages + 1) % UINT32_MOD}
    (g1, trigger_event g1 .MESSAGE_RECEIVED payload ESP_OK)
  | .CLOSE => (set_state g .DISCONNECTED, [])
  | .PING => ((enqueue_send_message g .PONG payload).1, [])
  | .PONG => (g, [])
  | .CONT => (g, [])

/-- `MCP_WS_STATE_DISCONNECTED` case (mcp_websocket.c:556-575): stop the
ping timer, `cleanup_transport` (which also drains and frees every
queued send message), emit `DISCONNECTED`, then either bump the
reconnect counter and go to `RECONNECTING` (auto-reconnect on and no
stop requested) or go to `IDLE`. -/
def disconnected_step (g : Client) : Client × List mcp_ws_event_t :=
  let g1 := {g with ping_timer_active := false, send_queue := []}
  let evs := trigger_event g1 .DISCONNECTED [] ESP_OK
  if g1.auto_reconnect_enabled ∧ ¬g1.should_stop then
    ({set_state g1 .RECONNECTING with
        reconnect_count := (g1.reconnect_count + 1) % UINT32_MOD}, evs)
  else (set_state g1 .IDLE, evs)

/-- Backoff computation of the `MCP_WS_STATE_RECONNECTING` case
(mcp_websocket.c:577-582): `delay_ms` is a `uint32_t` initialized from
`config.reconnect_delay_ms`; for more than 3 reconnect attempts it is
multiplied by `1 << (reconnect_count - 3)` — a C `int` shift whose
value is `2 ^ (reconnect_count - 3)` — with the product reduced modulo
`2 ^ 32` by `uint32_t` arithmetic, then clamped to at most 60000 ms. -/
def reconnect_backoff (reconnect_count : Nat) (reconnect_delay_ms : Nat) : Nat :=
  if reconnect_count > 3 then
    let delay_ms := (reconnect_delay_ms * 2 ^ (reconnect_count - 3)) % UINT32_MOD
    if delay_ms > 60000 then 60000 else delay_ms
  else reconnect_delay_ms

/-- One dispatch of `switch (g_ws_client.state)` in
`websocket_main_task` (mcp_websocket.c:376-599).  Environment inputs
that cannot occur in the current state leave the client unchanged.  In
`RECONNECTING` the task sleeps `reconnect_backoff` ms and then moves to
`INITIALIZING`; in `ERROR` it runs `cleanup_transport` (emptying the
send queue) and emits an `ERROR` event; an unknown state (the unused
`DISCONNECTING`) hits the `default:` arm and goes to `ERROR`. -/
def main_task_step (g : Client) (inp : TaskInput) : Client × List mcp_ws_event_t :=
  match g.state with
  | .IDLE => (g, [])
  | .INITIALIZING =>
    match inp with
    | .initResult true => (set_state g .CONNECTING, [])
    | .initResult false => (set_state g .ERROR, [])
    | _ => (g, [])
  | .CONNECTING =>
    match inp with
    | .connectResult result status => connecting_step g result status
    | _ => (g, [])
  | .CONNECTED =>
    match inp with
    | .sendResult sent => connected_drain_one g sent
    | .readFrame opcode payload => connected_recv g opcode payload
    | .readError len =>
      if len < 0 ∧ len ≠ ESP_ERR_TIMEOUT then (set_state g .DISCONNECTED, [])
      else (g, [])
    | _ => (g, [])
  | .DISCONNECTED => disconnected_step g
  | .RECONNECTING => (set_state g .INITIALIZING, [])
  | .ERROR => ({g with send_queue := []}, trigger_event g .ERROR [] ESP_FAIL)
  | .DISCONNECTING => (set_state g .ERROR, [])

/-! ## `mcp_websocket_init` (mcp_websocket.c:614-672) -/

/-- `mcp_websocket_init`: a NULL config or empty endpoint is
`ESP_ERR_INVALID_ARG`; an already initialized client returns `ESP_OK`
untouched.  Otherwise the config is copied (with defaults substituted
for zero intervals), the endpoint parsed, and on success the send queue
and ping timer are created and the client is marked initialized in
state `IDLE`.  `xQueueCreate`/`esp_timer_create` failure paths are not
modelled. -/
def mcp_websocket_init (g : Client) (config : Option mcp_ws_config_t) : Client × Int :=
  match config with
  | none => (g, ESP_ERR_INVALID_ARG)
  | some cfg =>
    if cfg.endpoint.length = 0 then (g, ESP_ERR_INVALID_ARG)
    else if g.initialized then (g, ESP_OK)
    else
      let cfg1 := {cfg with
        reconnect_delay_ms :=
          if cfg.reconnect_delay_ms = 0 then MCP_WS_RECONNECT_DELAY_MS
          else cfg.reconnect_delay_ms,
        ping_interval_ms :=
          if cfg.ping_interval_ms = 0 then MCP_WS_PING_INTERVAL_MS
          else cfg.ping_interval_ms}
      let g1 := {g with config := cfg1, event_callback := cfg.has_callback,
                        auto_reconnect_enabled := cfg.auto_reconnect}
      match parse_url cfg1.endpoint with
      | .error e => ({g1 with host := none, path := none}, e)
      | .ok parsed =>
        ({g1 with use_ssl := parsed.use_ssl, port := parsed.port,
                  host := some parsed.host, path := some parsed.path,
                  send_queue_created := true, send_queue := [],
                  ping_timer_created := true,
                  state := .IDLE, initialized := true}, ESP_OK)

/-! ## Concrete clients used in witnesses and counterexamples -/

/-- An initialized client (as produced by `mcp_websocket_init` followed
by `mcp_websocket_start`) with a callback registered and auto-reconnect
on; the base for the concrete scenarios below. -/
def wit_client : Client where
  config := ⟨('w' :: 's' :: ':' :: '/' :: '/' :: ['h', '/', 'p']), true, true, 5000, 20000⟩
  event_callback := true
  state := .IDLE
  host := some ['h']
  port := 80
  path := some ['/', 'p']
  use_ssl := false
  send_queue_created := true
  send_queue := []
  ping_timer_created := true
  ping_timer_active := false
  sent_messages := 0
  received_messages := 0
  reconnect_count := 0
  initialized := true
  should_stop := false
  auto_reconnect_enabled := true

/-! ## C1 -/

/-- C1: in state `Connecting`, a non-negative transport-open result with
handshake status 101 moves the machine to `Connected`, resets the
reconnect counter to 0 and emits a `Connected` event; a negative open
result, or any handshake status other than 101, moves it to
`Disconnected`. -/
theorem C1_connecting_transition (g : Client) (result status : Int)
    (hst : g.state = .CONNECTING) (hcb : g.event_callback = true) :
    (0 ≤ result ∧ status = 101 →
      (main_task_step g (.connectResult result status)).1.state = .CONNECTED ∧
      (main_task_step g (.connectResult result status)).1.reconnect_count = 0 ∧
      (main_task_step g (.connectResult result status)).2
        = [⟨.CONNECTED, [], ESP_OK⟩]) ∧
    (result < 0 ∨ status ≠ 101 →
      (main_task_step g (.connectResult result status)).1.state = .DISCONNECTED) := by
  constructor
  · rintro ⟨h1, h2⟩
    have hr : ¬ result < 0 := not_lt.mpr h1
    subst h2
    simp only [main_task_step, hst, connecting_step, set_state, trigger_event, hr,
      if_false, if_pos rfl, ite_true, ite_false, hcb]
    split <;> simp [trigger_event, hcb]
  · rintro (h | h)
    · simp [main_task_step, hst, connecting_step, set_state, h]
    · simp only [main_task_step, hst, connecting_step, set_state]
      split
      · rfl
      · simp [h]

/-- Witness for C1 at a concrete client: open result 0 with status 101
connects; open result -1 disconnects. -/
theorem C1_connecting_transition_witness :
    ((main_task_step {wit_client with state := .CONNECTING, reconnect_count := 2}
        (.connectResult 0 101)).1.state = .CONNECTED ∧
     (main_task_step {wit_client with state := .CONNECTING, reconnect_count := 2}
        (.connectResult 0 101)).1.reconnect_count = 0 ∧
     (main_task_step {wit_client with state := .CONNECTING, reconnect_count := 2}
        (.connectResult 0 101)).2 = [⟨.CONNECTED, [], ESP_OK⟩]) ∧
    (main_task_step {wit_client with state := .CONNECTING, reconnect_count := 2}
        (.connectResult (-1) 101)).1.state = .DISCONNECTED :=
  ⟨(C1_connecting_transition _ 0 101 rfl rfl).1 ⟨le_refl 0, rfl⟩,
   (C1_connecting_transition _ (-1) 101 rfl rfl).2 (Or.inl (by decide))⟩

/-! ## C3 -/

/-- Counterexample to C3 as stated: at reconnect attempt `k = 32` with
base delay 5000 ms the `uint32_t` product `5000 * 2 ^ 29` wraps to 0,
so the computed delay is 0 ms, not `min(5000 * 2 ^ 29, 60000) = 60000`. -/
theorem C3_cex :
    reconnect_backoff 32 5000 = 0 ∧
    min (5000 * 2 ^ (32 - 3)) 60000 = 60000 ∧
    reconnect_backoff 32 5000 ≠ min (5000 * 2 ^ (32 - 3)) 60000 := by decide

/-- C3 (amended): the backoff delay equals the base delay for at most 3
reconnect attempts and `min((base * 2 ^ (k - 3)) mod 2 ^ 32, 60000)` for
`k > 3` — the multiplication is 32-bit and can wrap; with base delay
5000 ms attempts 1..5 give 5000, 5000, 5000, 10000, 20000 ms. -/
theorem C3_backoff_amended (k base : Nat) :
    (k ≤ 3 → reconnect_backoff k base = base) ∧
    (3 < k →
      reconnect_backoff k base = min ((base * 2 ^ (k - 3)) % UINT32_MOD) 60000) ∧
    reconnect_backoff 1 5000 = 5000 ∧ reconnect_backoff 2 5000 = 5000 ∧
    reconnect_backoff 3 5000 = 5000 ∧ reconnect_backoff 4 5000 = 10000 ∧
    reconnect_backoff 5 5000 = 20000 := by
  refine ⟨?_, ?_, by decide, by decide, by decide, by decide, by decide⟩
  · intro h
    simp [reconnect_backoff, Nat.not_lt.mpr h]
  · intro h
    simp only [reconnect_backoff, h, if_pos]
    split <;> omega

/-- Witness for C3 (amended) at attempts 2 and 4 with base delay 5000. -/
theorem C3_backoff_amended_witness :
    reconnect_backoff 2 5000 = 5000 ∧
    reconnect_backoff 4 5000 = min ((5000 * 2 ^ (4 - 3)) % UINT32_MOD) 60000 :=
  ⟨(C3_backoff_amended 2 5000).1 (by decide),
   (C3_backoff_amended 4 5000).2.1 (by decide)⟩

/-! ## C6 -/

/-- A connected client whose send queue is full (10 TEXT frames queued). -/
def c6_full_client : Client :=
  {wit_client with state := .CONNECTED,
                   send_queue := List.replicate 10 ⟨.TEXT, ['x']⟩}

/-- Counterexample to C6 as stated: when a PING arrives while the send
queue already holds `MCP_WS_SEND_QUEUE_SIZE` frames, the PONG reply is
dropped by `enqueue_send_message` (after the enqueue timeout), so no
PONG at all is enqueued for that PING. -/
theorem C6_cex :
    c6_full_client.state = .CONNECTED ∧
    (main_task_step c6_full_client (.readFrame .PING ['a'])).1.send_queue
      = c6_full_client.send_queue ∧
    ((main_task_step c6_full_client (.readFrame .PING ['a'])).1.send_queue.filter
        (fun m => m.type == .PONG)).length = 0 := by decide

/-- C6 (amended): a PING received while `Connected` enqueues exactly one
PONG carrying the identical payload — provided the send queue is not
full (otherwise the PONG is dropped by the backpressure policy) — and
the received-message statistic is not incremented for that frame. -/
theorem C6_ping_pong (g : Client) (payload : List Char)
    (hst : g.state = .CONNECTED) (hqc : g.send_queue_created = true)
    (hlen : g.send_queue.length < MCP_WS_SEND_QUEUE_SIZE) :
    (main_task_step g (.readFrame .PING payload)).1.send_queue
      = g.send_queue ++ [⟨.PONG, payload⟩] ∧
    (main_task_step g (.readFrame .PING payload)).1.received_messages
      = g.received_messages ∧
    (main_task_step g (.readFrame .PING payload)).2 = [] := by
  simp [main_task_step, hst, connected_recv, enqueue_send_message, hqc, hlen]

/-- Witness for C6 (amended): a PING with payload `['a']` on a connected
client with an empty queue enqueues the single PONG `['a']`. -/
theorem C6_ping_pong_witness :
    (main_task_step {wit_client with state := .CONNECTED}
        (.readFrame .PING ['a'])).1.send_queue
      = {wit_client with state := .CONNECTED}.send_queue ++ [⟨.PONG, ['a']⟩] ∧
    (main_task_step {wit_client with state := .CONNECTED}
        (.readFrame .PING ['a'])).1.received_messages
      = {wit_client with state := .CONNECTED}.received_messages ∧
    (main_task_step {wit_client with state := .CONNECTED}
        (.readFrame .PING ['a'])).2 = [] :=
  C6_ping_pong _ ['a'] rfl rfl (by decide)

/-! ## C7 -/

/-- C7: a CLOSE opcode received while `Connected` moves the machine to
`Disconnected`; the next dispatch of the `Disconnected` state then
either (auto-reconnect on and no stop requested) increments the
reconnect counter and moves to `Reconnecting`, or otherwise moves to
`Idle`. -/
theorem C7_close_transition (g : Client) (payload : List Char)
    (hst : g.state = .CONNECTED) (hrc : g.reconnect_count + 1 < UINT32_MOD) :
    (main_task_step g (.readFrame .CLOSE payload)).1.state = .DISCONNECTED ∧
    (g.auto_reconnect_enabled = true ∧ g.should_stop = false →
      (main_task_step (main_task_step g (.readFrame .CLOSE payload)).1 .tick).1.state
        = .RECONNECTING ∧
      (main_task_step (main_task_step g
          (.readFrame .CLOSE payload)).1 .tick).1.reconnect_count
        = g.reconnect_count + 1) ∧
    (¬(g.auto_reconnect_enabled = true ∧ g.should_stop = false) →
      (main_task_step (main_task_step g (.readFrame .CLOSE payload)).1 .tick).1.state
        = .IDLE) := by
  have h1 : main_task_step g (.readFrame .CLOSE payload)
      = ({g with state := .DISCONNECTED}, []) := by
    simp [main_task_step, hst, connected_recv, set_state]
  refine ⟨by rw [h1], ?_, ?_⟩
  · rintro ⟨ha, hs⟩
    rw [h1]
    simp [main_task_step, disconnected_step, set_state, ha, hs,
      Nat.mod_eq_of_lt hrc]
  · intro h
    rw [h1]
    simp only [main_task_step, disconnected_step, set_state]
    split
    · rename_i hcond
      exact absurd ⟨hcond.1, by simpa using hcond.2⟩ h
    · rfl

/-- Witness for C7: on a concrete connected client, CLOSE then one more
dispatch reaches `Reconnecting` with the counter bumped; with
auto-reconnect off it reaches `Idle` instead. -/
theorem C7_close_transition_witness :
    (main_task_step {wit_client with state := .CONNECTED}
        (.readFrame .CLOSE ['b'])).1.state = .DISCONNECTED ∧
    (main_task_step (main_task_step {wit_client with state := .CONNECTED}
        (.readFrame .CLOSE ['b'])).1 .tick).1.state = .RECONNECTING ∧
    (main_task_step (main_task_step {wit_client with state := .CONNECTED}
        (.readFrame .CLOSE ['b'])).1 .tick).1.reconnect_count = 1 ∧
    (main_task_step (main_task_step {wit_client with
          state := .CONNECTED, auto_reconnect_enabled := false}
        (.readFrame .CLOSE ['b'])).1 .tick).1.state = .IDLE := by
  have h1 := C7_close_transition {wit_client with state := .CONNECTED} ['b'] rfl (by decide)
  have h2 := C7_close_transition {wit_client with
      state := .CONNECTED, auto_reconnect_enabled := false} ['b'] rfl (by decide)
  exact ⟨h1.1, (h1.2.1 ⟨rfl, rfl⟩).1, (h1.2.1 ⟨rfl, rfl⟩).2,
    h2.2.2 (by intro h; exact absurd h.1 (by decide))⟩

/-! ## C9 -/

/-- C9: when a queued frame is written to the transport successfully
(non-negative `esp_transport_ws_send_raw` result), the sent-messages
counter is incremented by one for every frame kind, but a
`MESSAGE_SENT` event is dispatched exactly when the frame kind is TEXT
— PING, PONG and CLOSE sends produce no event. -/
theorem C9_sent_counter_and_event (g : Client) (msg : mcp_ws_send_msg_t)
    (rest : List mcp_ws_send_msg_t) (n : Int)
    (hst : g.state = .CONNECTED) (hq : g.send_queue = msg :: rest)
    (hn : 0 ≤ n) (hcb : g.event_callback = true)
    (hw : g.sent_messages + 1 < UINT32_MOD) :
    (main_task_step g (.sendResult n)).1.sent_messages = g.sent_messages + 1 ∧
    (main_task_step g (.sendResult n)).2
      = (if msg.type = .TEXT then [⟨.MESSAGE_SENT, msg.data, ESP_OK⟩] else []) := by
  have hn' : ¬ n < 0 := not_lt.mpr hn
  simp only [main_task_step, hst, connected_drain_one, hq, hn', if_false, ite_false,
    Nat.mod_eq_of_lt hw, trigger_event]
  constructor
  · split <;> rfl
  · split <;> simp [trigger_event, hcb]

/-- A connected client with one queued TEXT frame. -/
def c9_text_client : Client :=
  {wit_client with state := .CONNECTED, send_queue := [⟨.TEXT, ['m']⟩]}

/-- A connected client with one queued PONG frame. -/
def c9_pong_client : Client :=
  {wit_client with state := .CONNECTED, send_queue := [⟨.PONG, ['m']⟩]}

/-- Witness for C9: a successful TEXT send bumps the counter and emits
`MESSAGE_SENT`; a successful PONG send bumps the counter silently. -/
theorem C9_sent_counter_and_event_witness :
    ((main_task_step c9_text_client (.sendResult 3)).1.sent_messages = 1 ∧
     (main_task_step c9_text_client (.sendResult 3)).2
       = [⟨.MESSAGE_SENT, ['m'], ESP_OK⟩]) ∧
    ((main_task_step c9_pong_client (.sendResult 3)).1.sent_messages = 1 ∧
     (main_task_step c9_pong_client (.sendResult 3)).2 = []) := by
  have h1 := C9_sent_counter_and_event c9_text_client ⟨.TEXT, ['m']⟩ [] 3
    rfl rfl (by decide) rfl (by decide)
  have h2 := C9_sent_counter_and_event c9_pong_client ⟨.PONG, ['m']⟩ [] 3
    rfl rfl (by decide) rfl (by decide)
  exact ⟨⟨h1.1, by simpa using h1.2⟩, ⟨h2.1, by simpa using h2.2⟩⟩

/-! ## C10 -/

/-- Counterexample to C10 as stated: calling `mcp_websocket_init` on an
already initialized client with a config whose endpoint string is empty
returns `ESP_ERR_INVALID_ARG`, not `ESP_OK` (the argument guard runs
before the already-initialized check). -/
theorem C10_cex :
    wit_client.initialized = true ∧
    (mcp_websocket_init wit_client (some ⟨[], true, true, 1000, 1000⟩)).2
      ≠ ESP_OK ∧
    (mcp_websocket_init wit_client (some ⟨[], true, true, 1000, 1000⟩)).2
      = ESP_ERR_INVALID_ARG := by decide

/-- C10 (amended): on an already initialized client,
`mcp_websocket_init` leaves the whole client state unchanged and
ignores the new configuration; it returns `ESP_OK` when the config
passes the argument guard (non-NULL with a non-empty endpoint) and
`ESP_ERR_INVALID_ARG` otherwise. -/
theorem C10_init_noop (g : Client) (cfg : mcp_ws_config_t)
    (hinit : g.initialized = true) :
    mcp_websocket_init g (some cfg)
      = (g, if cfg.endpoint.length = 0 then ESP_ERR_INVALID_ARG else ESP_OK) ∧
    mcp_websocket_init g none = (g, ESP_ERR_INVALID_ARG) := by
  refine ⟨?_, rfl⟩
  simp only [mcp_websocket_init, hinit]
  split <;> simp

/-- Witness for C10 (amended): re-initializing the concrete initialized
client with a fresh non-empty endpoint returns `ESP_OK` and changes
nothing. -/
theorem C10_init_noop_witness :
    mcp_websocket_init wit_client
        (some ⟨['w', 's', ':', '/', '/', 'x'], false, false, 1, 1⟩)
      = (wit_client, ESP_OK) := by
  have h := (C10_init_noop wit_client
    ⟨['w', 's', ':', '/', '/', 'x'], false, false, 1, 1⟩ rfl).1
  simpa using h

/-! ## C8 -/

/-- Counterexample to C8 as stated: the reconnect counter is not
monotonic — a successful handshake (`Connecting` with open result 0 and
status 101) resets it from 5 to 0. -/
theorem C8_cex :
    (main_task_step {wit_client with state := .CONNECTING, reconnect_count := 5}
        (.connectResult 0 101)).1.reconnect_count
      < {wit_client with state := .CONNECTING, reconnect_count := 5}.reconnect_count := by
  decide

/-- C8 (amended): across every dispatch of the state machine (absent
32-bit wraparound of a counter), the sent and received counters never
decrease, and the reconnect counter never decreases except for its
reset to 0 on a successful handshake. -/
theorem C8_counters_amended (g : Client) (inp : TaskInput)
    (h1 : g.sent_messages + 1 < UINT32_MOD)
    (h2 : g.received_messages + 1 < UINT32_MOD)
    (h3 : g.reconnect_count + 1 < UINT32_MOD) :
    g.sent_messages ≤ (main_task_step g inp).1.sent_messages ∧
    g.received_messages ≤ (main_task_step g inp).1.received_messages ∧
    (g.reconnect_count ≤ (main_task_step g inp).1.reconnect_count ∨
      (main_task_step g inp).1.reconnect_count = 0) := by
  have e1 : (g.sent_messages + 1) % UINT32_MOD = g.sent_messages + 1 :=
    Nat.mod_eq_of_lt h1
  have e2 : (g.received_messages + 1) % UINT32_MOD = g.received_messages + 1 :=
    Nat.mod_eq_of_lt h2
  have e3 : (g.reconnect_count + 1) % UINT32_MOD = g.reconnect_count + 1 :=
    Nat.mod_eq_of_lt h3
  obtain ⟨cf, cb, st, ho, po, pa, ssl, qc, q, tc, ta, sm, rm, rc, ini, stp, ar⟩ := g
  cases st <;> cases inp <;>
    simp only [main_task_step, set_state, connecting_step, connected_drain_one,
      connected_recv, disconnected_step, enqueue_send_message, trigger_event] <;>
    (try cases q) <;>
    (repeat' split) <;>
    simp_all

/-- Witness for C8 (amended) at a concrete dispatch. -/
theorem C8_counters_amended_witness :
    wit_client.sent_messages ≤ (main_task_step wit_client .tick).1.sent_messages ∧
    wit_client.received_messages
      ≤ (main_task_step wit_client .tick).1.received_messages ∧
    (wit_client.reconnect_count ≤ (main_task_step wit_client .tick).1.reconnect_count ∨
      (main_task_step wit_client .tick).1.reconnect_count = 0) :=
  C8_counters_amended wit_client .tick (by decide) (by decide) (by decide)

/-! ## C2 -/

/-- The drain loop consumes exactly the queue contents in FIFO order. -/
lemma drain_all_eq (l : List mcp_ws_send_msg_t) : drain_all l = l := by
  induction l with
  | nil => rfl
  | cons m rest ih => simp [drain_all, ih]

/-- Behavior of a burst of `enqueue_send_message` calls: with `k` free
slots, the first `k` frames are appended in call order and acknowledged
`ESP_OK`; every later frame is dropped with `ESP_ERR_TIMEOUT`. -/
lemma enqueue_list_spec (ms : List (mcp_ws_msg_type_t × List Char)) (g : Client)
    (hqc : g.send_queue_created = true) :
    (enqueue_list g ms).1.send_queue
      = g.send_queue
        ++ (ms.take (MCP_WS_SEND_QUEUE_SIZE - g.send_queue.length)).map
            (fun m => ⟨m.1, m.2⟩) ∧
    (enqueue_list g ms).2
      = List.replicate (min ms.length (MCP_WS_SEND_QUEUE_SIZE - g.send_queue.length))
            ESP_OK
        ++ List.replicate (ms.length - (MCP_WS_SEND_QUEUE_SIZE - g.send_queue.length))
            ESP_ERR_TIMEOUT := by
  induction ms generalizing g with
  | nil => simp [enqueue_list]
  | cons m ms ih =>
    by_cases hfull : g.send_queue.length < MCP_WS_SEND_QUEUE_SIZE
    · have step : enqueue_send_message g m.1 m.2
          = ({g with send_queue := g.send_queue ++ [⟨m.1, m.2⟩]}, ESP_OK) := by
        simp [enqueue_send_message, hqc, hfull]
      have ihg := ih {g with send_queue := g.send_queue ++ [⟨m.1, m.2⟩]} (by simp [hqc])
      simp only [List.length_append, List.length_cons, List.length_nil] at ihg
      constructor
      · have hsplit : MCP_WS_SEND_QUEUE_SIZE - g.send_queue.length
            = (MCP_WS_SEND_QUEUE_SIZE - (g.send_queue.length + 1)) + 1 := by
          simp only [MCP_WS_SEND_QUEUE_SIZE] at hfull ⊢
          omega
        simp only [enqueue_list, step, ihg.1, hsplit, List.take_succ_cons,
          List.map_cons, List.append_assoc, List.cons_append, List.nil_append]
      · have hmin : min (ms.length + 1) (MCP_WS_SEND_QUEUE_SIZE - g.send_queue.length)
            = min ms.length (MCP_WS_SEND_QUEUE_SIZE - (g.send_queue.length + 1)) + 1 := by
          simp only [MCP_WS_SEND_QUEUE_SIZE] at hfull ⊢
          omega
        have hsub : ms.length + 1 - (MCP_WS_SEND_QUEUE_SIZE - g.send_queue.length)
            = ms.length - (MCP_WS_SEND_QUEUE_SIZE - (g.send_queue.length + 1)) := by
          simp only [MCP_WS_SEND_QUEUE_SIZE] at hfull ⊢
          omega
        simp only [enqueue_list, step, ihg.2, List.length_cons, hmin, hsub,
          List.replicate_succ, List.cons_append]
    · have h0 : MCP_WS_SEND_QUEUE_SIZE - g.send_queue.length = 0 := by omega
      have step : enqueue_send_message g m.1 m.2 = (g, ESP_ERR_TIMEOUT) := by
        simp [enqueue_send_message, hqc, hfull]
      have ihg := ih g hqc
      simp only [h0, List.take_zero, List.map_nil, List.append_nil, Nat.min_zero,
        List.replicate_zero, List.nil_append, Nat.sub_zero] at ihg ⊢
      simp only [enqueue_list, step, ihg.1, ihg.2, List.length_cons,
        List.replicate_succ]
      exact ⟨trivial, trivial⟩

/-- C2: enqueueing more frames than the queue capacity (10) within one
timeout window retains exactly the first 10 frames, in FIFO enqueue
order and without duplication, drains them later in that same order,
returns `ESP_ERR_TIMEOUT` (`Dropped`) for each excess enqueue, and
never lets the queue length exceed the capacity at any point of the
burst. -/
theorem C2_queue_fifo (ms : List (mcp_ws_msg_type_t × List Char)) (g : Client)
    (hqc : g.send_queue_created = true) (hempty : g.send_queue = [])
    (hover : MCP_WS_SEND_QUEUE_SIZE < ms.length) :
    (enqueue_list g ms).1.send_queue
      = (ms.take MCP_WS_SEND_QUEUE_SIZE).map (fun m => ⟨m.1, m.2⟩) ∧
    drain_all (enqueue_list g ms).1.send_queue
      = (ms.take MCP_WS_SEND_QUEUE_SIZE).map (fun m => ⟨m.1, m.2⟩) ∧
    (enqueue_list g ms).2
      = List.replicate MCP_WS_SEND_QUEUE_SIZE ESP_OK
        ++ List.replicate (ms.length - MCP_WS_SEND_QUEUE_SIZE) ESP_ERR_TIMEOUT ∧
    ∀ n, (enqueue_list g (ms.take n)).1.send_queue.length ≤ MCP_WS_SEND_QUEUE_SIZE := by
  have h := enqueue_list_spec ms g hqc
  rw [hempty] at h
  simp only [List.length_nil, Nat.sub_zero, List.nil_append] at h
  refine ⟨h.1, ?_, ?_, ?_⟩
  · rw [h.1, drain_all_eq]
  · rw [h.2, Nat.min_eq_right (le_of_lt hover)]
  · intro n
    have hn := enqueue_list_spec (ms.take n) g hqc
    rw [hempty] at hn
    simp only [List.length_nil, Nat.sub_zero, List.nil_append] at hn
    rw [hn.1]
    simp only [List.length_map, List.length_take]
    omega

/-- Twelve frames enqueued in one burst against capacity 10. -/
def c2_msgs : List (mcp_ws_msg_type_t × List Char) :=
  [(.TEXT, ['0']), (.TEXT, ['1']), (.TEXT, ['2']), (.TEXT, ['3']), (.TEXT, ['4']),
   (.TEXT, ['5']), (.TEXT, ['6']), (.TEXT, ['7']), (.TEXT, ['8']), (.TEXT, ['9']),
   (.PING, ['z']), (.CLOSE, [])]

/-- Witness for C2: 12 frames against the empty queue keep the first 10
in order, acknowledge those with `ESP_OK` and drop the last 2 with
`ESP_ERR_TIMEOUT`. -/
theorem C2_queue_fifo_witness :
    (enqueue_list wit_client c2_msgs).1.send_queue
      = (c2_msgs.take MCP_WS_SEND_QUEUE_SIZE).map (fun m => ⟨m.1, m.2⟩) ∧
    (enqueue_list wit_client c2_msgs).2
      = List.replicate MCP_WS_SEND_QUEUE_SIZE ESP_OK
        ++ List.replicate (c2_msgs.length - MCP_WS_SEND_QUEUE_SIZE) ESP_ERR_TIMEOUT ∧
    (enqueue_list wit_client (c2_msgs.take 12)).1.send_queue.length
      ≤ MCP_WS_SEND_QUEUE_SIZE := by
  have h := C2_queue_fifo c2_msgs wit_client rfl rfl (by decide)
  exact ⟨h.1, h.2.2.1, h.2.2.2 12⟩

/-! ## List helpers for the URL parser proofs -/

/-- Over a list avoiding `a`, the character-difference test holds
everywhere. -/
lemma ne_pred_of_not_mem {a : Char} {l : List Char} (h : a ∉ l) :
    ∀ x ∈ l, decide (x ≠ a) = true := by
  intro x hx
  simp only [decide_eq_true_eq]
  exact fun he => h (he ▸ hx)

/-- `takeWhile` passes over a prefix on which the predicate holds. -/
lemma takeWhile_append_left (p : Char → Bool) (l1 l2 : List Char)
    (h : ∀ x ∈ l1, p x) :
    (l1 ++ l2).takeWhile p = l1 ++ l2.takeWhile p := by
  induction l1 with
  | nil => simp
  | cons a t ih =>
    have ha : p a := h a (by simp)
    simp [List.takeWhile_cons, ha, ih (fun x hx => h x (by simp [hx]))]

/-- `dropWhile` passes over a prefix on which the predicate holds. -/
lemma dropWhile_append_left (p : Char → Bool) (l1 l2 : List Char)
    (h : ∀ x ∈ l1, p x) :
    (l1 ++ l2).dropWhile p = l2.dropWhile p := by
  induction l1 with
  | nil => simp
  | cons a t ih =>
    have ha : p a := h a (by simp)
    simp [List.dropWhile_cons, ha, ih (fun x hx => h x (by simp [hx]))]

/-- Scanning for `a` comes up empty exactly when `a` does not occur. -/
lemma dropWhile_ne_eq_nil_iff (a : Char) (l : List Char) :
    l.dropWhile (fun c => c ≠ a) = [] ↔ a ∉ l := by
  rw [List.dropWhile_eq_nil_iff]
  constructor
  · intro h hmem
    have := h _ hmem
    simp at this
  · exact fun h => ne_pred_of_not_mem h

/-- `takeWhile` keeps a whole list avoiding `a`. -/
lemma takeWhile_ne_eq_self (a : Char) (l : List Char) (h : a ∉ l) :
    l.takeWhile (fun c => c ≠ a) = l := by
  have := takeWhile_append_left (fun c => c ≠ a) l [] (ne_pred_of_not_mem h)
  simpa using this

/-- `"ws://..."` never matches the 6-character `"wss://"` test. -/
lemma take6_ws_ne_wss (r : List Char) : (ws_scheme ++ r).take 6 ≠ wss_scheme := by
  cases r <;> simp [ws_scheme, wss_scheme]

/-! ## Splitting lemmas for `parse_url` -/

/-- A `"wss://"` endpoint that fits the URL work buffer dispatches to
`parse_after_scheme` with SSL on and default port 443. -/
lemma parse_url_wss (r : List Char) (hlen : 6 + r.length ≤ MCP_WS_MAX_URL_LEN - 1) :
    parse_url (wss_scheme ++ r) = parse_after_scheme true 443 r := by
  have h1 : (wss_scheme ++ r).take (MCP_WS_MAX_URL_LEN - 1) = wss_scheme ++ r := by
    refine List.take_of_length_le ?_
    simp only [MCP_WS_MAX_URL_LEN] at hlen ⊢
    simp [wss_scheme]
    omega
  have h2 : (wss_scheme ++ r).take 6 = wss_scheme := List.take_left wss_scheme r
  have h3 : (wss_scheme ++ r).drop 6 = r := List.drop_left wss_scheme r
  simp [parse_url, h1, h2, h3]

/-- A `"ws://"` endpoint that fits the URL work buffer dispatches to
`parse_after_scheme` with SSL off and default port 80. -/
lemma parse_url_ws (r : List Char) (hlen : 5 + r.length ≤ MCP_WS_MAX_URL_LEN - 1) :
    parse_url (ws_scheme ++ r) = parse_after_scheme false 80 r := by
  have h1 : (ws_scheme ++ r).take (MCP_WS_MAX_URL_LEN - 1) = ws_scheme ++ r := by
    refine List.take_of_length_le ?_
    simp only [MCP_WS_MAX_URL_LEN] at hlen ⊢
    simp [ws_scheme]
    omega
  have h2 : (ws_scheme ++ r).take 5 = ws_scheme := List.take_left ws_scheme r
  have h3 : (ws_scheme ++ r).drop 5 = r := List.drop_left ws_scheme r
  simp [parse_url, h1, h2, h3, take6_ws_ne_wss r]

/-- The host/path split: a slash-free host part of admissible length
followed by either nothing or a `'/'`-led path reaches the port check
with exactly that host, and with the literal path (or the `"/mcp/"`
default when absent). -/
lemma parse_after_scheme_split (ssl : Bool) (port0 : Nat) (hp path_ : List Char)
    (hns : '/' ∉ hp) (hpath : path_ = [] ∨ path_.head? = some '/')
    (hlen1 : 0 < hp.length) (hlen2 : hp.length < MCP_WS_MAX_HOST_LEN)
    (hplen : path_.length ≤ MCP_WS_MAX_PATH_LEN - 1) :
    parse_after_scheme ssl port0 (hp ++ path_)
      = parse_port ssl port0 hp (if path_ = [] then mcp_default_path else path_) := by
  rcases hpath with hnil | hhead
  · subst hnil
    have htw : (hp ++ ([] : List Char)).takeWhile (fun c => c ≠ '/') = hp := by
      rw [List.append_nil]
      exact takeWhile_ne_eq_self '/' hp hns
    have hdw : (hp ++ ([] : List Char)).dropWhile (fun c => c ≠ '/') = [] := by
      rw [List.append_nil, dropWhile_ne_eq_nil_iff]
      exact hns
    have htake : hp.take (MCP_WS_MAX_HOST_LEN - 1) = hp := by
      refine List.take_of_length_le ?_
      simp only [MCP_WS_MAX_HOST_LEN] at hlen2 ⊢
      omega
    simp only [parse_after_scheme, htw, hdw, htake]
    simp
  · obtain ⟨t, rfl⟩ : ∃ t, path_ = '/' :: t := by
      cases path_ with
      | nil => simp at hhead
      | cons a t =>
        simp only [List.head?_cons, Option.some.injEq] at hhead
        exact ⟨t, by rw [hhead]⟩
    have htw : (hp ++ '/' :: t).takeWhile (fun c => c ≠ '/') = hp := by
      rw [takeWhile_append_left _ _ _ (ne_pred_of_not_mem hns)]
      simp [List.takeWhile_cons]
    have hdw : (hp ++ '/' :: t).dropWhile (fun c => c ≠ '/') = '/' :: t := by
      rw [dropWhile_append_left _ _ _ (ne_pred_of_not_mem hns)]
      simp [List.dropWhile_cons]
    have htake : ('/' :: t).take (MCP_WS_MAX_PATH_LEN - 1) = '/' :: t := by
      refine List.take_of_length_le ?_
      simp only [MCP_WS_MAX_PATH_LEN] at hplen ⊢
      simpa using hplen
    simp only [parse_after_scheme, htw, hdw, htake]
    simp [hlen1, hlen2]

/-- The port check with no colon in the host: the scheme default port
stands. -/
lemma parse_port_no_colon (ssl : Bool) (port0 : Nat) (host path : List Char)
    (h : ':' ∉ host) :
    parse_port ssl port0 host path = .ok ⟨ssl, port0, host, path⟩ := by
  have hd : host.dropWhile (fun c => c ≠ ':') = [] :=
    (dropWhile_ne_eq_nil_iff ':' host).mpr h
  simp only [parse_port, hd]
  simp

/-- The port check with an explicit `:port` suffix: the host is cut at
the colon and `atoi` of the suffix must land in `1..65535`. -/
lemma parse_port_colon (ssl : Bool) (port0 : Nat) (h pd path : List Char)
    (hh : ':' ∉ h) :
    parse_port ssl port0 (h ++ ':' :: pd) path
      = if 0 < atoi pd ∧ atoi pd ≤ 65535 then .ok ⟨ssl, (atoi pd).toNat, h, path⟩
        else .error ESP_ERR_INVALID_ARG := by
  have htw : (h ++ ':' :: pd).takeWhile (fun c => c ≠ ':') = h := by
    rw [takeWhile_append_left _ _ _ (ne_pred_of_not_mem hh)]
    simp [List.takeWhile_cons]
  have hdw : (h ++ ':' :: pd).dropWhile (fun c => c ≠ ':') = ':' :: pd := by
    rw [dropWhile_append_left _ _ _ (ne_pred_of_not_mem hh)]
    simp [List.dropWhile_cons]
  simp only [parse_port, htw, hdw]
  rw [if_neg (by simp)]
  simp only [List.drop_one, List.tail_cons]

/-! ## C4 -/

/-- A syntactically valid `ws://` URL whose host part is 256 characters
long, with a path present. -/
def c4_long_host_url : List Char := ws_scheme ++ List.replicate 256 'a' ++ ['/', 'p']

set_option maxRecDepth 20000 in
/-- Counterexample to C4 as stated: parsing a valid `ws://` URL does not
always succeed — a host of 256 characters followed by a path fails the
`host_len < MCP_WS_MAX_HOST_LEN` buffer check and `parse_url` returns
`ESP_ERR_INVALID_ARG`. -/
theorem C4_cex :
    parse_url c4_long_host_url = .error ESP_ERR_INVALID_ARG := by decide

/-- C4 (amended): for valid `ws://`/`wss://` URLs that fit the 512-byte
endpoint buffer and whose host portion is shorter than 256 characters,
parsing succeeds with the scheme default port (80 / 443) when no
explicit port is given, the literal substring from the first `'/'`
after the scheme to the end of the string (query string included) as
the path, and `"/mcp/"` as the path when no `'/'` is present; in
particular `wss://example.com/mcp/?token=abc` parses to scheme `wss`,
host `example.com`, port 443, path `"/mcp/?token=abc"`. -/
theorem C4_parse_valid_url (host path_ : List Char)
    (hne : host ≠ []) (hhlen : host.length < MCP_WS_MAX_HOST_LEN)
    (hns : '/' ∉ host) (hnc : ':' ∉ host)
    (hpath : path_ = [] ∨ path_.head? = some '/')
    (htot : 6 + host.length + path_.length ≤ MCP_WS_MAX_URL_LEN - 1) :
    parse_url (wss_scheme ++ (host ++ path_))
      = .ok ⟨true, 443, host, if path_ = [] then mcp_default_path else path_⟩ ∧
    parse_url (ws_scheme ++ (host ++ path_))
      = .ok ⟨false, 80, host, if path_ = [] then mcp_default_path else path_⟩ ∧
    parse_url ("wss://example.com/mcp/?token=abc".data)
      = .ok ⟨true, 443, "example.com".data, "/mcp/?token=abc".data⟩ := by
  have hlen1 : 0 < host.length := List.length_pos.mpr hne
  have hplen : path_.length ≤ MCP_WS_MAX_PATH_LEN - 1 := by
    simp only [MCP_WS_MAX_URL_LEN] at htot
    simp only [MCP_WS_MAX_PATH_LEN]
    omega
  refine ⟨?_, ?_, by decide⟩
  · rw [parse_url_wss (host ++ path_) (by simp only [List.length_append]; omega),
      parse_after_scheme_split true 443 host path_ hns hpath hlen1 hhlen hplen,
      parse_port_no_colon true 443 host _ hnc]
  · rw [parse_url_ws (host ++ path_)
        (by simp only [List.length_append, MCP_WS_MAX_URL_LEN] at htot ⊢; omega),
      parse_after_scheme_split false 80 host path_ hns hpath hlen1 hhlen hplen,
      parse_port_no_colon false 80 host _ hnc]

/-- Witness for C4 (amended): `wss://h/p` and a path-less `ws://h`. -/
theorem C4_parse_valid_url_witness :
    parse_url (wss_scheme ++ (['h'] ++ ['/', 'p']))
      = .ok ⟨true, 443, ['h'],
          if (['/', 'p'] : List Char) = [] then mcp_default_path else ['/', 'p']⟩ ∧
    parse_url (ws_scheme ++ (['h'] ++ []))
      = .ok ⟨false, 80, ['h'],
          if ([] : List Char) = [] then mcp_default_path else []⟩ :=
  ⟨(C4_parse_valid_url ['h'] ['/', 'p'] (by decide) (by decide) (by decide)
      (by decide) (Or.inr (by decide)) (by decide)).1,
   (C4_parse_valid_url ['h'] [] (by decide) (by decide) (by decide)
      (by decide) (Or.inl rfl) (by decide)).2.1⟩

/-! ## C5 -/

/-- When does the port check fail?  Exactly when the host carries a
colon whose `atoi`-parsed suffix is outside `1..65535`. -/
lemma parse_port_error_iff (ssl : Bool) (port0 : Nat) (host path : List Char) :
    parse_port ssl port0 host path = .error ESP_ERR_INVALID_ARG ↔
      (':' ∈ host ∧
        ¬(0 < atoi ((host.dropWhile (fun c => c ≠ ':')).drop 1) ∧
          atoi ((host.dropWhile (fun c => c ≠ ':')).drop 1) ≤ 65535)) := by
  by_cases hd : host.dropWhile (fun c => c ≠ ':') = []
  · have hmem : ':' ∉ host := (dropWhile_ne_eq_nil_iff ':' host).mp hd
    simp only [parse_port, hd, if_pos rfl]
    simp [hmem]
  · have hmem : ':' ∈ host := by
      by_contra hc
      exact hd ((dropWhile_ne_eq_nil_iff ':' host).mpr hc)
    simp only [parse_port]
    rw [if_neg hd]
    by_cases hr : 0 < atoi ((host.dropWhile (fun c => c ≠ ':')).drop 1) ∧
        atoi ((host.dropWhile (fun c => c ≠ ':')).drop 1) ≤ 65535
    · rw [if_pos hr]
      simp_all
    · rw [if_neg hr]
      simp_all

/-- When does the host/path stage fail?  Either a path is present and
the host part in front of it is empty or overlong, or that stage passes
and the port check fails on the (possibly truncated) host buffer. -/
lemma parse_after_scheme_error_iff (ssl : Bool) (port0 : Nat) (rest : List Char) :
    parse_after_scheme ssl port0 rest = .error ESP_ERR_INVALID_ARG ↔
      (let hostPart := rest.takeWhile (fun c => c ≠ '/')
       let sel := if '/' ∈ rest then hostPart
                  else hostPart.take (MCP_WS_MAX_HOST_LEN - 1)
       let pd := (sel.dropWhile (fun c => c ≠ ':')).drop 1
       ('/' ∈ rest ∧ ¬(0 < hostPart.length ∧ hostPart.length < MCP_WS_MAX_HOST_LEN)) ∨
       (('/' ∈ rest → 0 < hostPart.length ∧ hostPart.length < MCP_WS_MAX_HOST_LEN) ∧
        ':' ∈ sel ∧ ¬(0 < atoi pd ∧ atoi pd ≤ 65535))) := by
  by_cases hs : '/' ∈ rest
  · have hne : rest.dropWhile (fun c => c ≠ '/') ≠ [] := by
      intro h
      exact (dropWhile_ne_eq_nil_iff '/' rest).mp h hs
    by_cases hh : 0 < (rest.takeWhile (fun c => c ≠ '/')).length ∧
        (rest.takeWhile (fun c => c ≠ '/')).length < MCP_WS_MAX_HOST_LEN
    · simp only [parse_after_scheme]
      rw [if_pos hne, if_pos hh, parse_port_error_iff]
      simp_all
    · simp only [parse_after_scheme]
      rw [if_pos hne, if_neg hh]
      simp_all
  · have heq : rest.dropWhile (fun c => c ≠ '/') = [] :=
      (dropWhile_ne_eq_nil_iff '/' rest).mpr hs
    simp only [parse_after_scheme]
    rw [if_neg (by simp [heq, hs]), parse_port_error_iff]
    simp_all

/-- C5 (amended): `parse_url` fails with `ESP_ERR_INVALID_ARG` if and
only if — on the (truncated-to-511-characters) input — the scheme is
neither `ws` nor `wss`, or a `'/'` follows the scheme and the
host-and-port portion before it is empty or 256 or more characters
long, or the (possibly 255-truncated) host buffer carries a colon whose
`atoi`-parsed suffix lies outside `1..65535`.  In particular: a port
with trailing non-digit garbage is accepted with its leading numeric
value (`atoi` semantics), an empty host without a path is accepted
(`ws://` parses fine), and — as the claim states — an explicit in-range
port overrides the scheme default. -/
theorem C5_parse_error_characterization :
    (∀ url : List Char,
      parse_url url = .error ESP_ERR_INVALID_ARG ↔
        (let u := url.take (MCP_WS_MAX_URL_LEN - 1)
         let isWss := u.take 6 = wss_scheme
         let isWs := u.take 5 = ws_scheme
         let rest := if isWss then u.drop 6 else u.drop 5
         let hostPart := rest.takeWhile (fun c => c ≠ '/')
         let sel := if '/' ∈ rest then hostPart
                    else hostPart.take (MCP_WS_MAX_HOST_LEN - 1)
         let pd := (sel.dropWhile (fun c => c ≠ ':')).drop 1
         (¬isWss ∧ ¬isWs) ∨
         ((isWss ∨ isWs) ∧ '/' ∈ rest ∧
           ¬(0 < hostPart.length ∧ hostPart.length < MCP_WS_MAX_HOST_LEN)) ∨
         ((isWss ∨ isWs) ∧
           ('/' ∈ rest → 0 < hostPart.length ∧ hostPart.length < MCP_WS_MAX_HOST_LEN) ∧
           ':' ∈ sel ∧ ¬(0 < atoi pd ∧ atoi pd ≤ 65535)))) ∧
    (∀ h pd path_ : List Char, '/' ∉ h → '/' ∉ pd → ':' ∉ h →
      (path_ = [] ∨ path_.head? = some '/') →
      h.length + 1 + pd.length < MCP_WS_MAX_HOST_LEN →
      6 + (h.length + 1 + pd.length) + path_.length ≤ MCP_WS_MAX_URL_LEN - 1 →
      0 < atoi pd → atoi pd ≤ 65535 →
      parse_url (wss_scheme ++ ((h ++ ':' :: pd) ++ path_))
        = .ok ⟨true, (atoi pd).toNat, h,
            if path_ = [] then mcp_default_path else path_⟩ ∧
      parse_url (ws_scheme ++ ((h ++ ':' :: pd) ++ path_))
        = .ok ⟨false, (atoi pd).toNat, h,
            if path_ = [] then mcp_default_path else path_⟩) ∧
    parse_url ws_scheme = .ok ⟨false, 80, [], mcp_default_path⟩ := by
  refine ⟨?_, ?_, by decide⟩
  · intro url
    by_cases hwss : (url.take (MCP_WS_MAX_URL_LEN - 1)).take 6 = wss_scheme
    · simp only [parse_url]
      rw [if_pos hwss, parse_after_scheme_error_iff]
      simp only [hwss, if_pos rfl]
      simp
    · by_cases hws : (url.take (MCP_WS_MAX_URL_LEN - 1)).take 5 = ws_scheme
      · simp only [parse_url]
        rw [if_neg hwss, if_pos hws, parse_after_scheme_error_iff]
        simp [hwss, hws]
      · simp only [parse_url]
        rw [if_neg hwss, if_neg hws]
        simp [hwss, hws]
  · intro h pd path_ hsh hsp hch hpath hhl htot hr1 hr2
    have hslash : '/' ∉ (h ++ ':' :: pd) := by
      intro hmem
      rcases List.mem_append.mp hmem with hm | hm
      · exact hsh hm
      · rcases List.mem_cons.mp hm with he | hm2
        · exact absurd he (by decide)
        · exact hsp hm2
    have hlen1 : 0 < (h ++ ':' :: pd).length := by simp
    have hlen2 : (h ++ ':' :: pd).length < MCP_WS_MAX_HOST_LEN := by
      simp only [MCP_WS_MAX_HOST_LEN] at hhl ⊢
      simp only [List.length_append, List.length_cons]
      omega
    have hplen : path_.length ≤ MCP_WS_MAX_PATH_LEN - 1 := by
      simp only [MCP_WS_MAX_URL_LEN] at htot
      simp only [MCP_WS_MAX_PATH_LEN]
      omega
    constructor
    · rw [parse_url_wss ((h ++ ':' :: pd) ++ path_)
          (by simp only [List.length_append, List.length_cons, MCP_WS_MAX_URL_LEN]
                at htot ⊢
              omega),
        parse_after_scheme_split true 443 _ path_ hslash hpath hlen1 hlen2 hplen,
        parse_port_colon true 443 h pd _ hch, if_pos ⟨hr1, hr2⟩]
    · rw [parse_url_ws ((h ++ ':' :: pd) ++ path_)
          (by simp only [List.length_append, List.length_cons, MCP_WS_MAX_URL_LEN]
                at htot ⊢
              omega),
        parse_after_scheme_split false 80 _ path_ hslash hpath hlen1 hlen2 hplen,
        parse_port_colon false 80 h pd _ hch, if_pos ⟨hr1, hr2⟩]

/-- Witness for C5: `ws://h:99/p` parses with the overriding port 99,
and a scheme-less URL is rejected via the error characterization. -/
theorem C5_parse_error_characterization_witness :
    parse_url (ws_scheme ++ ((['h'] ++ ':' :: ['9', '9']) ++ ['/', 'p']))
      = .ok ⟨false, (atoi ['9', '9']).toNat, ['h'],
          if (['/', 'p'] : List Char) = [] then mcp_default_path else ['/', 'p']⟩ ∧
    parse_url ['x'] = .error ESP_ERR_INVALID_ARG :=
  ⟨(C5_parse_error_characterization.2.1 ['h'] ['9', '9'] ['/', 'p']
      (by decide) (by decide) (by decide) (Or.inr (by decide)) (by decide)
      (by decide) (by decide) (by decide)).2,
   (C5_parse_error_characterization.1 ['x']).mpr (by decide)⟩

/-- Counterexample to C5 as stated: the claimed failure condition is not
an `iff` of the code's behavior — `"ws://"` has an empty host yet
parses successfully (host `""`, port 80, path `"/mcp/"`), and
`"ws://h:8x/p"` has a non-numeric port (`"8x"`) yet parses successfully
with port 8 (`atoi` stops at the first non-digit). -/
theorem C5_cex :
    parse_url ws_scheme = .ok ⟨false, 80, [], mcp_default_path⟩ ∧
    parse_url ('w' :: 's' :: ':' :: '/' :: '/' :: 'h' :: ':' :: '8' :: 'x' :: ['/', 'p'])
      = .ok ⟨false, 8, ['h'], ['/', 'p']⟩ := by decide
